import Mathlib

/-!
Shallow embedding of the real-time update channel of the
lancerscape-project-management client (`src/hooks/useWebSocket.ts`,
here `src/unnamed/part_002`) and of the milestone-board grouping and
progress computation (`src/components/milestones/MilestoneBoard.tsx`).

The hook's mutable pieces (`isConnected`, `lastMessage`, `wsRef`,
`reconnectTimeoutRef`, `reconnectAttempts`) become a `HookState` record,
and each browser/runtime callback (`onopen`, `onmessage`, `onclose`,
`onerror`, a `setTimeout` firing, the effect mount and its cleanup)
becomes one case of a step function `wsStep` on that record.  `JSON.parse`
of inbound data is represented by its outcome: `none` when it throws
(the `catch` branch of `onmessage`), `some m` when it yields a message.
Cache invalidations (`queryClient.invalidateQueries`) are emitted as a
list of query keys rather than performed, so `wsStep` returns the new
state together with the keys invalidated during the step.
-/

/-- `data` field of a wire message; the code reads `message.data.projectId`. -/
structure WsData where
  projectId : String
deriving DecidableEq, Repr

/-- `WebSocketMessage` from `useWebSocket.ts`: `{ type, data, timestamp }`.
`type` is a string on the wire, so unrecognized kinds can occur. -/
structure WebSocketMessage where
  type : String
  data : WsData
  timestamp : String
deriving DecidableEq, Repr

/-- An outbound message before the timestamp is added
(`Omit<WebSocketMessage, 'timestamp'>`). -/
structure OutMessage where
  type : String
  data : WsData
deriving DecidableEq, Repr

/-- A react-query cache key, e.g. `['project', id]`. -/
def QueryKey : Type := List String
deriving DecidableEq, Repr

/-- `readyState` constant of the browser API checked by `sendMessage`. -/
def WebSocket.CONNECTING : Nat := 0

/-- `readyState` constant of the browser API checked by `sendMessage`. -/
def WebSocket.OPEN : Nat := 1

/-- `readyState` constant of the browser API. -/
def WebSocket.CLOSED : Nat := 3

/-- The object held in `wsRef.current`: its url and its `readyState`. -/
structure WsSocket where
  url : String
  readyState : Nat
deriving DecidableEq, Repr

/-- The hook's state: `isConnected` / `lastMessage` (React state),
`wsRef` (`none` before the first connect), `pendingDelay` models
`reconnectTimeoutRef` as the delay of the scheduled timer if one is
pending, and `reconnectAttempts`. -/
structure HookState where
  isConnected : Bool
  lastMessage : Option WebSocketMessage
  ws : Option WsSocket
  pendingDelay : Option Nat
  reconnectAttempts : Nat
deriving DecidableEq, Repr

/-- `const maxReconnectAttempts = 5`. -/
def maxReconnectAttempts : Nat := 5

/-- Fallback base URL in `connect`:
`import.meta.env.VITE_WS_URL || 'wss://api.lancerscape.in'`. -/
def defaultWsBase : String := "wss://api.lancerscape.in"

/-- The URL built by `connect`.  The environment variable is `none` when
absent; JavaScript `||` also replaces an empty string by the fallback. -/
def wsUrl (env : Option String) (userId : String) : String :=
  (match env with
   | some u => if u = "" then defaultWsBase else u
   | none => defaultWsBase) ++ "/ws?userId=" ++ userId

/-- `connect()`: `wsRef.current = new WebSocket(wsUrl)`. -/
def connect (env : Option String) (userId : String) (s : HookState) : HookState :=
  { s with ws := some { url := wsUrl env userId, readyState := WebSocket.CONNECTING } }

/-- `handleMessage`: the invalidation router.  The `switch` on
`message.type` becomes a chain of string tests; the missing `default`
branch invalidates nothing. -/
def handleMessage (message : WebSocketMessage) : List QueryKey :=
  if message.type = "project_update" then
    [["projects"], ["project", message.data.projectId]]
  else if message.type = "milestone_update" then
    [["milestones", message.data.projectId]]
  else if message.type = "proposal_update" then
    [["proposals", message.data.projectId]]
  else if message.type = "file_upload" then
    [["project-files", message.data.projectId]]
  else if message.type = "notification" then
    [["notifications"]]
  else []

/-- `sendMessage`: returns the envelope written to the socket, or `none`
when the guard `wsRef.current && wsRef.current.readyState === WebSocket.OPEN`
fails (the message is silently dropped).  The body only calls
`ws.send`, so it changes no hook state. -/
def sendMessage (s : HookState) (now : String) (m : OutMessage) :
    Option WebSocketMessage :=
  match s.ws with
  | some w =>
      if w.readyState = WebSocket.OPEN then
        some { type := m.type, data := m.data, timestamp := now }
      else none
  | none => none

/-- The discrete events driving the hook: the effect mounting
(`if (userId) connect()`), the socket callbacks, a scheduled reconnect
timer firing, and the effect cleanup (teardown).  `messageEv none` is an
inbound frame whose `JSON.parse` throws. -/
inductive WsEvent where
  | mountEv
  | openEv
  | messageEv (data : Option WebSocketMessage)
  | closeEv
  | errorEv
  | timerEv
  | teardownEv
deriving DecidableEq, Repr

/-- One event step of the hook.  Returns the new state and the query keys
invalidated during the step.
* `mountEv`: the effect body — connect only when `userId` is truthy.
* `openEv`: the browser marks the socket OPEN, then `onopen` sets
  `isConnected` and resets the retry counter.
* `messageEv`: `onmessage` — on parse failure the error is caught and
  logged, nothing else happens; on success `setLastMessage` then
  `handleMessage`.
* `closeEv`: the socket becomes CLOSED and `onclose` runs:
  `setIsConnected(false)`, then, when the counter is below the maximum,
  increment it and schedule a reconnect after
  `Math.min(1000 * Math.pow(2, reconnectAttempts.current), 30000)` ms.
* `errorEv`: `onerror` only logs.
* `timerEv`: a pending `setTimeout` fires: the timer is consumed and
  `connect()` runs; without a pending timer nothing happens.
* `teardownEv`: the cleanup — `clearTimeout` on any pending timer and
  `wsRef.current.close()`; the socket object stays in `wsRef` with its
  handlers attached, so a later `closeEv` still runs `onclose`. -/
def wsStep (env : Option String) (userId : String) (s : HookState) (e : WsEvent) :
    HookState × List QueryKey :=
  match e with
  | .mountEv => (if userId = "" then s else connect env userId s, [])
  | .openEv =>
      ({ s with
          isConnected := true
          reconnectAttempts := 0
          ws := s.ws.map (fun w => { w with readyState := WebSocket.OPEN }) }, [])
  | .messageEv none => (s, [])
  | .messageEv (some m) => ({ s with lastMessage := some m }, handleMessage m)
  | .closeEv =>
      let s1 := { s with
          isConnected := false
          ws := s.ws.map (fun w => { w with readyState := WebSocket.CLOSED }) }
      if s1.reconnectAttempts < maxReconnectAttempts then
        ({ s1 with
            reconnectAttempts := s1.reconnectAttempts + 1
            pendingDelay :=
              some (min (1000 * 2 ^ (s1.reconnectAttempts + 1)) 30000) }, [])
      else (s1, [])
  | .errorEv => (s, [])
  | .timerEv =>
      match s.pendingDelay with
      | some _ => (connect env userId { s with pendingDelay := none }, [])
      | none => (s, [])
  | .teardownEv =>
      ({ s with
          pendingDelay := none
          ws := s.ws.map (fun w => { w with readyState := WebSocket.CLOSED }) }, [])

/-- Folding `wsStep` over a list of events (the invalidation outputs are
dropped; they are examined per step). -/
def wsRun (env : Option String) (userId : String) : HookState → List WsEvent → HookState
  | s, [] => s
  | s, e :: es => wsRun env userId (wsStep env userId s e).1 es

/-- The state before the effect first runs: refs at their initial values. -/
def initState : HookState :=
  { isConnected := false
    lastMessage := none
    ws := none
    pendingDelay := none
    reconnectAttempts := 0 }

/-- A freshly connected session: effect mounted, then the open succeeded. -/
def connectedState : HookState :=
  wsRun none "u1" initState [WsEvent.mountEv, WsEvent.openEv]

/-- The backoff delays observed over `n` failure rounds: each round is an
involuntary close (recording the delay it schedules, if any) followed by
the timer firing and the next connection attempt. -/
def runDelays (env : Option String) (userId : String) : HookState → Nat → List Nat
  | _, 0 => []
  | s, n + 1 =>
    let s1 := (wsStep env userId s WsEvent.closeEv).1
    let s2 := (wsStep env userId s1 WsEvent.timerEv).1
    (match s1.pendingDelay with
     | some d => [d]
     | none => []) ++ runDelays env userId s2 n

/-- `Milestone['status']` from `src/types/project.ts`: exactly three values. -/
inductive MilestoneStatus where
  | pending
  | in_progress
  | completed
deriving DecidableEq, Repr

/-- `Milestone` from `src/types/project.ts`.  `amount : number` is embedded
as a rational: the claims about it concern the grouping and the
guarded-division formula, not float rounding. -/
structure Milestone where
  id : String
  title : String
  description : String
  amount : ℚ
  deadline : String
  status : MilestoneStatus
  deliverables : List String
deriving DecidableEq, Repr

/-- The three columns of the board. -/
structure GroupedMilestones where
  pending : List Milestone
  in_progress : List Milestone
  completed : List Milestone
deriving DecidableEq, Repr

/-- `groupedMilestones` from `MilestoneBoard.tsx`: one `filter` per status. -/
def groupedMilestones (milestones : List Milestone) : GroupedMilestones :=
  { pending := milestones.filter (fun m => decide (m.status = MilestoneStatus.pending))
    in_progress := milestones.filter (fun m => decide (m.status = MilestoneStatus.in_progress))
    completed := milestones.filter (fun m => decide (m.status = MilestoneStatus.completed)) }

/-- `totalAmount = milestones.reduce((sum, m) => sum + m.amount, 0)`. -/
def totalAmount (milestones : List Milestone) : ℚ :=
  milestones.foldl (fun sum m => sum + m.amount) 0

/-- `completedAmount`: the same reduction over the completed column. -/
def completedAmount (milestones : List Milestone) : ℚ :=
  (groupedMilestones milestones).completed.foldl (fun sum m => sum + m.amount) 0

/-- `progressPercentage = totalAmount > 0 ? (completedAmount / totalAmount) * 100 : 0`. -/
def progressPercentage (milestones : List Milestone) : ℚ :=
  if totalAmount milestones > 0 then
    completedAmount milestones / totalAmount milestones * 100
  else 0

/-- C1: routing an envelope with one of the five recognized kinds
invalidates exactly the keys of the fixed table, parameterized by the
projectId carried in the payload: `project_update` the project-list key
and the single-project key, `milestone_update` the milestones key,
`proposal_update` the proposals key, `file_upload` the project-files key,
and `notification` the notifications key. -/
theorem route_recognized_kinds (pid ts : String) :
    handleMessage { type := "project_update", data := ⟨pid⟩, timestamp := ts }
      = [["projects"], ["project", pid]]
  ∧ handleMessage { type := "milestone_update", data := ⟨pid⟩, timestamp := ts }
      = [["milestones", pid]]
  ∧ handleMessage { type := "proposal_update", data := ⟨pid⟩, timestamp := ts }
      = [["proposals", pid]]
  ∧ handleMessage { type := "file_upload", data := ⟨pid⟩, timestamp := ts }
      = [["project-files", pid]]
  ∧ handleMessage { type := "notification", data := ⟨pid⟩, timestamp := ts }
      = [["notifications"]] :=
  ⟨rfl, rfl, rfl, rfl, rfl⟩

/-- C5: an envelope whose kind is none of the five recognized categories
routes to the empty key set: the message-handling step invalidates
nothing, raises no error, and leaves the connection flag, the socket, the
pending timer and the retry counter unchanged. -/
theorem route_unrecognized_kind_noop (m : WebSocketMessage)
    (h : m.type ∉ (["project_update", "milestone_update", "proposal_update",
        "file_upload", "notification"] : List String)) :
    handleMessage m = []
  ∧ ∀ env uid s,
      (wsStep env uid s (WsEvent.messageEv (some m))).2 = []
    ∧ (wsStep env uid s (WsEvent.messageEv (some m))).1.isConnected = s.isConnected
    ∧ (wsStep env uid s (WsEvent.messageEv (some m))).1.ws = s.ws
    ∧ (wsStep env uid s (WsEvent.messageEv (some m))).1.pendingDelay = s.pendingDelay
    ∧ (wsStep env uid s (WsEvent.messageEv (some m))).1.reconnectAttempts
        = s.reconnectAttempts := by
  simp only [List.mem_cons, List.not_mem_nil, or_false, not_or] at h
  obtain ⟨h1, h2, h3, h4, h5⟩ := h
  have hm : handleMessage m = [] := by
    simp [handleMessage, h1, h2, h3, h4, h5]
  exact ⟨hm, fun env uid s => ⟨by simp [wsStep, hm], rfl, rfl, rfl, rfl⟩⟩

/-- A concrete envelope with an unrecognized kind. -/
def unknownMsg : WebSocketMessage :=
  { type := "payment_update", data := ⟨"p1"⟩, timestamp := "t0" }

theorem route_unrecognized_kind_noop_witness :
    unknownMsg.type ∉ (["project_update", "milestone_update", "proposal_update",
        "file_upload", "notification"] : List String)
  ∧ handleMessage unknownMsg = []
  ∧ (wsStep none "u1" initState (WsEvent.messageEv (some unknownMsg))).2 = [] :=
  ⟨by decide, (route_unrecognized_kind_noop unknownMsg (by decide)).1,
    ((route_unrecognized_kind_noop unknownMsg (by decide)).2 none "u1" initState).1⟩

/-- C6: on every successful open, `onopen` sets the connection flag and
resets the retry counter to 0, whatever state (in particular whatever
retry count) preceded it, and no invalidation is emitted. -/
theorem open_sets_connected_resets_counter (env : Option String) (uid : String)
    (s : HookState) :
    (wsStep env uid s WsEvent.openEv).1.isConnected = true
  ∧ (wsStep env uid s WsEvent.openEv).1.reconnectAttempts = 0
  ∧ (wsStep env uid s WsEvent.openEv).2 = [] :=
  ⟨rfl, rfl, rfl⟩

/-- C7: an inbound frame whose data fails to decode (`JSON.parse` throws,
modelled as `messageEv none`) is dropped: the state — including
`lastMessage` and the socket — is exactly unchanged and no invalidation
is routed; the caught error never propagates. -/
theorem malformed_message_dropped (env : Option String) (uid : String) (s : HookState) :
    wsStep env uid s (WsEvent.messageEv none) = (s, []) :=
  rfl

/-- C8: `sendMessage` is a no-op when no socket exists or the socket's
`readyState` is not OPEN; when it is OPEN, the envelope is transmitted
with the timestamp added, and the hook state is untouched in all cases
(`sendMessage` only writes to the socket). -/
theorem send_noop_unless_open (s : HookState) (now : String) (m : OutMessage) :
    (s.ws = none → sendMessage s now m = none)
  ∧ (∀ w, s.ws = some w → ¬ w.readyState = WebSocket.OPEN →
      sendMessage s now m = none)
  ∧ (∀ w, s.ws = some w → w.readyState = WebSocket.OPEN →
      sendMessage s now m = some { type := m.type, data := m.data, timestamp := now }) :=
  ⟨fun h => by simp [sendMessage, h],
   fun w hw hr => by simp [sendMessage, hw, hr],
   fun w hw hr => by simp [sendMessage, hw, hr]⟩

/-- A state whose socket is open (mounted, then `onopen` fired). -/
def openState : HookState :=
  { initState with
      isConnected := true
      ws := some { url := wsUrl none "u1", readyState := WebSocket.OPEN } }

theorem send_noop_unless_open_witness :
    initState.ws = none
  ∧ sendMessage initState "t1" { type := "notification", data := ⟨"p1"⟩ } = none
  ∧ sendMessage openState "t1" { type := "notification", data := ⟨"p1"⟩ }
      = some { type := "notification", data := ⟨"p1"⟩, timestamp := "t1" } :=
  ⟨rfl, (send_noop_unless_open initState "t1" _).1 rfl,
    (send_noop_unless_open openState "t1" _).2.2 _ rfl rfl⟩

/-- C3: each involuntary close with the retry counter below the maximum
schedules a reconnect after `min(1000 * 2 ^ attempt, 30000)` ms, where
`attempt` is the counter after incrementing for this failure; from a
fresh connection, five successive failures with no successful open in
between schedule exactly the delays 2000, 4000, 8000, 16000, 30000 ms. -/
theorem backoff_delay_sequence :
    runDelays none "u1" connectedState 5 = [2000, 4000, 8000, 16000, 30000]
  ∧ ∀ env uid s, s.reconnectAttempts < maxReconnectAttempts →
      (wsStep env uid s WsEvent.closeEv).1.pendingDelay
        = some (min (1000 * 2 ^ (s.reconnectAttempts + 1)) 30000) := by
  refine ⟨by decide, fun env uid s h => ?_⟩
  simp [wsStep, h]

theorem backoff_delay_sequence_witness :
    connectedState.reconnectAttempts < maxReconnectAttempts
  ∧ (wsStep none "u1" connectedState WsEvent.closeEv).1.pendingDelay
      = some (min (1000 * 2 ^ (connectedState.reconnectAttempts + 1)) 30000) :=
  ⟨by decide, backoff_delay_sequence.2 none "u1" connectedState (by decide)⟩

/-- One step never pushes the retry counter beyond the maximum: `onclose`
only increments under the `< maxReconnectAttempts` guard, and `onopen`
resets it to 0. -/
theorem wsStep_attempts_le (env : Option String) (uid : String) (s : HookState)
    (e : WsEvent) (h : s.reconnectAttempts ≤ maxReconnectAttempts) :
    (wsStep env uid s e).1.reconnectAttempts ≤ maxReconnectAttempts := by
  cases e with
  | mountEv =>
      by_cases huid : uid = "" <;> simp [wsStep, connect, huid, h]
  | openEv => simp [wsStep]
  | messageEv d => cases d <;> simpa [wsStep] using h
  | closeEv =>
      simp only [wsStep]
      split
      · simpa using by omega
      · simpa using h
  | errorEv => simpa [wsStep] using h
  | timerEv =>
      cases hp : s.pendingDelay <;> simp [wsStep, hp, connect, h]
  | teardownEv => simpa [wsStep] using h

/-- The counter bound is preserved along any event trace. -/
theorem wsRun_attempts_le (env : Option String) (uid : String) (es : List WsEvent)
    (s : HookState) (h : s.reconnectAttempts ≤ maxReconnectAttempts) :
    (wsRun env uid s es).reconnectAttempts ≤ maxReconnectAttempts := by
  induction es generalizing s with
  | nil => exact h
  | cons e es ih => exact ih _ (wsStep_attempts_le env uid s e h)

/-- The state after the retry budget is exhausted: the counter is at the
maximum, the last scheduled retry has fired and failed, no timer pends. -/
def givenUpState : HookState :=
  { isConnected := false
    lastMessage := none
    ws := some { url := wsUrl none "u1", readyState := WebSocket.CLOSED }
    pendingDelay := none
    reconnectAttempts := maxReconnectAttempts }

/-- C4: in every state reachable from the initial state the retry counter
never exceeds the maximum of 5; once the counter is at the maximum and no
timer pends (the given-up state), no event ever schedules a reconnect
timer, and no event other than the external mount (re-`start`) creates a
new socket; running six failure rounds from a fresh connection yields
only the five capped delays — no 6th attempt is scheduled. -/
theorem givenUp_is_terminal :
    (∀ env uid es, (wsRun env uid initState es).reconnectAttempts ≤ maxReconnectAttempts)
  ∧ (∀ env uid s e, s.reconnectAttempts = maxReconnectAttempts → s.pendingDelay = none →
      (wsStep env uid s e).1.pendingDelay = none
      ∧ (e ≠ WsEvent.mountEv →
          Option.map WsSocket.url (wsStep env uid s e).1.ws
            = Option.map WsSocket.url s.ws))
  ∧ runDelays none "u1" connectedState 6 = [2000, 4000, 8000, 16000, 30000] := by
  refine ⟨fun env uid es => wsRun_attempts_le env uid es initState (by decide),
    fun env uid s e ha hp => ?_, by decide⟩
  cases e with
  | mountEv =>
      refine ⟨?_, fun hne => absurd rfl hne⟩
      by_cases huid : uid = "" <;> simp [wsStep, connect, huid, hp]
  | openEv =>
      refine ⟨by simpa [wsStep] using hp, fun _ => ?_⟩
      cases hws : s.ws <;> simp [wsStep, hws]
  | messageEv d => cases d <;> exact ⟨by simpa [wsStep] using hp, fun _ => rfl⟩
  | closeEv =>
      have hlt : ¬ s.reconnectAttempts < maxReconnectAttempts := by omega
      refine ⟨by simp [wsStep, hlt, hp], fun _ => ?_⟩
      cases hws : s.ws <;> simp [wsStep, hlt, hws]
  | errorEv => exact ⟨by simpa [wsStep] using hp, fun _ => rfl⟩
  | timerEv => exact ⟨by simp [wsStep, hp], fun _ => by simp [wsStep, hp]⟩
  | teardownEv =>
      refine ⟨by simp [wsStep], fun _ => ?_⟩
      cases hws : s.ws <;> simp [wsStep, hws]

theorem givenUp_is_terminal_witness :
    givenUpState.reconnectAttempts = maxReconnectAttempts
  ∧ givenUpState.pendingDelay = none
  ∧ (wsStep none "u1" givenUpState WsEvent.closeEv).1.pendingDelay = none :=
  ⟨rfl, rfl,
    (givenUp_is_terminal.2.1 none "u1" givenUpState WsEvent.closeEv rfl rfl).1⟩

/-- A session that mounts, connects successfully, and is then torn down:
the cleanup cancels any pending timer and calls `close()` on the socket. -/
def teardownTrace : List WsEvent :=
  [WsEvent.mountEv, WsEvent.openEv, WsEvent.teardownEv]

/-- C2, refuted by the code: the cleanup does cancel the pending timer and
close the socket, but nothing detaches or guards the socket's `onclose`
handler, and no flag records that the close was voluntary.  When the
close event of the socket closed by the cleanup fires, the handler still
runs: the connection flag transitions from `true` to `false` AFTER
teardown, the retry counter is incremented to 1, a reconnect is scheduled
with delay 2000 ms, and when that timer fires a brand-new socket is
opened — state transitions and a reconnect attempt after teardown,
contradicting the claimed suppression of reconnection on voluntary
close. -/
theorem teardown_does_not_suppress_reconnect :
    (wsRun none "u1" initState teardownTrace).pendingDelay = none
  ∧ (wsRun none "u1" initState teardownTrace).isConnected = true
  ∧ (wsRun none "u1" initState (teardownTrace ++ [WsEvent.closeEv])).isConnected = false
  ∧ (wsRun none "u1" initState (teardownTrace ++ [WsEvent.closeEv])).reconnectAttempts = 1
  ∧ (wsRun none "u1" initState (teardownTrace ++ [WsEvent.closeEv])).pendingDelay
      = some 2000
  ∧ (wsRun none "u1" initState (teardownTrace ++ [WsEvent.closeEv, WsEvent.timerEv])).ws
      = some { url := "wss://api.lancerscape.in/ws?userId=u1"
               readyState := WebSocket.CONNECTING } :=
  ⟨rfl, rfl, rfl, rfl, rfl, rfl⟩

/-- C9, counterexample: with the push-endpoint env URL absent and a
nonempty userId, mounting still creates a socket — a connection IS
attempted, so real-time updates are not disabled. -/
theorem missing_env_counterexample :
    (wsRun none "u1" initState [WsEvent.mountEv]).ws ≠ none := by
  decide

/-- C9, amended: when the push-endpoint base URL is absent from the
environment (or empty — JavaScript `||` treats both as falsy), the client
falls back to the hardcoded default base `wss://api.lancerscape.in` and
still attempts a connection; what disables the channel without failing
the application is an empty userId, for which the mount effect does
nothing. -/
theorem missing_env_falls_back_to_default (uid : String) (h : ¬ uid = "") :
    (wsRun none uid initState [WsEvent.mountEv]).ws
      = some { url := defaultWsBase ++ "/ws?userId=" ++ uid
               readyState := WebSocket.CONNECTING }
  ∧ wsUrl (some "") uid = wsUrl none uid
  ∧ (∀ env s, wsStep env "" s WsEvent.mountEv = (s, [])) := by
  refine ⟨?_, rfl, fun env s => by simp [wsStep]⟩
  simp [wsRun, wsStep, connect, wsUrl, h]

theorem missing_env_falls_back_witness :
    ¬ ("u1" : String) = ""
  ∧ (wsRun none "u1" initState [WsEvent.mountEv]).ws
      = some { url := defaultWsBase ++ "/ws?userId=" ++ "u1"
               readyState := WebSocket.CONNECTING } :=
  ⟨by decide, (missing_env_falls_back_to_default "u1" (by decide)).1⟩

/-- The three status filters together preserve the list's length: the
grouping is a partition with multiplicity. -/
theorem groupedMilestones_length (milestones : List Milestone) :
    (groupedMilestones milestones).pending.length
      + (groupedMilestones milestones).in_progress.length
      + (groupedMilestones milestones).completed.length
      = milestones.length := by
  simp only [groupedMilestones]
  induction milestones with
  | nil => rfl
  | cons m ms ih =>
      cases h : m.status <;> simp [List.filter_cons, h] <;> omega

/-- C10: the board's grouping partitions the milestone list — each
milestone lands in exactly the column of its status (and the three column
lengths sum to the list length) — and the progress percentage equals
`100 * completedAmount / totalAmount` whenever the total amount is
positive, and is 0 when the total amount is 0: the division is always
guarded. -/
theorem milestone_partition_and_progress (milestones : List Milestone)
    (m : Milestone) (hm : m ∈ milestones) :
    ((m ∈ (groupedMilestones milestones).pending ↔ m.status = MilestoneStatus.pending)
     ∧ (m ∈ (groupedMilestones milestones).in_progress
          ↔ m.status = MilestoneStatus.in_progress)
     ∧ (m ∈ (groupedMilestones milestones).completed
          ↔ m.status = MilestoneStatus.completed))
  ∧ ((groupedMilestones milestones).pending.length
      + (groupedMilestones milestones).in_progress.length
      + (groupedMilestones milestones).completed.length
      = milestones.length)
  ∧ (totalAmount milestones > 0 →
      progressPercentage milestones
        = 100 * completedAmount milestones / totalAmount milestones)
  ∧ (totalAmount milestones = 0 → progressPercentage milestones = 0) := by
  refine ⟨⟨?_, ?_, ?_⟩, groupedMilestones_length milestones, fun hpos => ?_, fun h0 => ?_⟩
  · simp [groupedMilestones, List.mem_filter, hm]
  · simp [groupedMilestones, List.mem_filter, hm]
  · simp [groupedMilestones, List.mem_filter, hm]
  · rw [progressPercentage, if_pos hpos]
    field_simp
    ring
  · simp [progressPercentage, h0]

/-- A completed milestone worth 300. -/
def msA : Milestone :=
  { id := "m1", title := "A", description := "", amount := 300, deadline := "d1"
    status := MilestoneStatus.completed, deliverables := [] }

/-- A pending milestone worth 100. -/
def msB : Milestone :=
  { id := "m2", title := "B", description := "", amount := 100, deadline := "d2"
    status := MilestoneStatus.pending, deliverables := [] }

theorem milestone_partition_and_progress_witness :
    msA ∈ [msA, msB]
  ∧ (msA ∈ (groupedMilestones [msA, msB]).completed
      ↔ msA.status = MilestoneStatus.completed)
  ∧ (totalAmount [msA, msB] > 0 →
      progressPercentage [msA, msB]
        = 100 * completedAmount [msA, msB] / totalAmount [msA, msB]) :=
  ⟨List.mem_cons_self msA [msB],
    (milestone_partition_and_progress [msA, msB] msA
      (List.mem_cons_self msA [msB])).1.2.2,
    (milestone_partition_and_progress [msA, msB] msA
      (List.mem_cons_self msA [msB])).2.2.1⟩
